import Mathlib

/-!
Shallow embedding of the response-validation logic of the REST client in
`src/rest_gemini_client.rs` (function `handle_response`), together with an
executable model of JSON decoding in the style of `serde_json::from_str`,
sufficient to state and settle the specification claims.
-/

namespace RestClient

/-- JSON values as produced by the decoder. Numbers keep their lexeme, since
no claim inspects numeric magnitude. -/
inductive Json where
| null : Json
| bool (b : Bool) : Json
| num (lexeme : String) : Json
| str (s : String) : Json
| arr (elems : List Json) : Json
| obj (fields : List (String × Json)) : Json

/-- Model of `Value::index` by key: field lookup on objects, `Null` otherwise
(serde_json returns `Null` for a missing key or a non-object receiver). -/
def Json.getField : Json → String → Json
| .obj fs, k => (((fs.find? (fun p => p.1 == k)).map Prod.snd).getD Json.null)
| _, _ => Json.null

/-- Model of `Value::index` by position: element lookup on arrays, `Null`
otherwise. -/
def Json.getIdx : Json → Nat → Json
| .arr xs, i => (xs.get? i).getD Json.null
| _, _ => Json.null

/-- Model of `Value::as_str`. -/
def Json.asStr : Json → Option String
| .str s => some s
| _ => none

/-- Model of `Value::is_object`. -/
def Json.isObj : Json → Bool
| .obj _ => true
| _ => false

/-- Model of `Value::is_array`. -/
def Json.isArr : Json → Bool
| .arr _ => true
| _ => false

/-- Model of `Value::is_string`. -/
def Json.isStr : Json → Bool
| .str _ => true
| _ => false

/-- Whether an object value carries the given key. -/
def Json.hasKey : Json → String → Bool
| .obj fs, k => fs.any (fun p => p.1 == k)
| _, _ => false

/-- JSON whitespace accepted between tokens by serde_json. -/
def isJsonWs (c : Char) : Bool :=
  c == ' ' || c == '\t' || c == '\n' || c == '\r'

/-- Value of a hexadecimal digit. -/
def hexVal (c : Char) : Option Nat :=
  if '0' ≤ c ∧ c ≤ '9' then some (c.toNat - 48)
  else if 'a' ≤ c ∧ c ≤ 'f' then some (c.toNat - 87)
  else if 'A' ≤ c ∧ c ≤ 'F' then some (c.toNat - 70)
  else none

/-- Decimal digit test. -/
def isDigit (c : Char) : Bool := decide ('0' ≤ c ∧ c ≤ '9')

/-- Body of a JSON string literal, after the opening quote: processes escape
sequences (including `\uXXXX` with surrogate pairs) and rejects unescaped
control characters, as serde_json does. Fuel bounds the recursion. -/
def parseStrBody : Nat → List Char → List Char → Except String (String × List Char)
| 0, _, _ => .error "recursion limit exceeded in string"
| Nat.succ _, _, [] => .error "EOF while parsing a string"
| Nat.succ fuel, acc, c :: cs =>
  if c = '"' then .ok (String.mk acc.reverse, cs)
  else if c = '\\' then
    match cs with
    | [] => .error "EOF while parsing a string escape"
    | e :: cs2 =>
      if e = '"' then parseStrBody fuel ('"' :: acc) cs2
      else if e = '\\' then parseStrBody fuel ('\\' :: acc) cs2
      else if e = '/' then parseStrBody fuel ('/' :: acc) cs2
      else if e = 'n' then parseStrBody fuel ('\n' :: acc) cs2
      else if e = 't' then parseStrBody fuel ('\t' :: acc) cs2
      else if e = 'r' then parseStrBody fuel ('\r' :: acc) cs2
      else if e = 'b' then parseStrBody fuel (Char.ofNat 8 :: acc) cs2
      else if e = 'f' then parseStrBody fuel (Char.ofNat 12 :: acc) cs2
      else if e = 'u' then
        match cs2 with
        | h1 :: h2 :: h3 :: h4 :: cs3 =>
          match hexVal h1, hexVal h2, hexVal h3, hexVal h4 with
          | some a, some b, some c3, some d =>
            let n := a * 4096 + b * 256 + c3 * 16 + d
            if 0xD800 ≤ n ∧ n ≤ 0xDBFF then
              match cs3 with
              | '\\' :: 'u' :: g1 :: g2 :: g3 :: g4 :: cs4 =>
                match hexVal g1, hexVal g2, hexVal g3, hexVal g4 with
                | some a2, some b2, some c4, some d2 =>
                  let m := a2 * 4096 + b2 * 256 + c4 * 16 + d2
                  if 0xDC00 ≤ m ∧ m ≤ 0xDFFF then
                    parseStrBody fuel
                      (Char.ofNat (0x10000 + (n - 0xD800) * 1024 + (m - 0xDC00)) :: acc) cs4
                  else .error "unexpected end of hex escape"
                | _, _, _, _ => .error "invalid hex escape"
              | _ => .error "unexpected end of hex escape"
            else if 0xDC00 ≤ n ∧ n ≤ 0xDFFF then .error "lone leading surrogate in hex escape"
            else parseStrBody fuel (Char.ofNat n :: acc) cs3
          | _, _, _, _ => .error "invalid hex escape"
        | _ => .error "EOF while parsing a string escape"
      else .error "invalid escape"
  else if c.toNat < 32 then .error "control character in string"
  else parseStrBody fuel (c :: acc) cs

/-- Exponent tail of a number lexeme, after the `e`/`E` marker. -/
def parseExpTail (acc : List Char) (rest : List Char) : Except String (Json × List Char) :=
  let sgnAndRest : List Char × List Char :=
    match rest with
    | '+' :: r => (['+'], r)
    | '-' :: r => (['-'], r)
    | _ => ([], rest)
  let digs := sgnAndRest.2.takeWhile isDigit
  if digs.isEmpty then .error "invalid number: empty exponent"
  else .ok (Json.num (String.mk (acc ++ sgnAndRest.1 ++ digs)), sgnAndRest.2.dropWhile isDigit)

/-- Optional exponent part of a number lexeme. -/
def parseNumberExpPart (acc : List Char) (cs : List Char) : Except String (Json × List Char) :=
  match cs with
  | 'e' :: rest => parseExpTail (acc ++ ['e']) rest
  | 'E' :: rest => parseExpTail (acc ++ ['E']) rest
  | _ => .ok (Json.num (String.mk acc), cs)

/-- Optional fractional part of a number lexeme. -/
def parseNumberFrac (acc : List Char) (cs : List Char) : Except String (Json × List Char) :=
  match cs with
  | '.' :: rest =>
    let digs := rest.takeWhile isDigit
    if digs.isEmpty then .error "invalid number: no digits after decimal point"
    else parseNumberExpPart (acc ++ '.' :: digs) (rest.dropWhile isDigit)
  | _ => parseNumberExpPart acc cs

/-- A JSON number: optional minus, integer part with no leading zeros, then
optional fraction and exponent, as in serde_json. -/
def parseNumber (cs : List Char) : Except String (Json × List Char) :=
  let negAndRest : List Char × List Char :=
    match cs with
    | '-' :: rest => (['-'], rest)
    | _ => ([], cs)
  match negAndRest.2 with
  | [] => .error "EOF while parsing a number"
  | d :: rest =>
    if d = '0' then parseNumberFrac (negAndRest.1 ++ ['0']) rest
    else if isDigit d then
      parseNumberFrac (negAndRest.1 ++ (d :: rest).takeWhile isDigit)
        ((d :: rest).dropWhile isDigit)
    else .error "invalid number"

mutual

/-- A single JSON value (after optional leading whitespace); model of the
recursive descent in serde_json. Fuel bounds the recursion depth. -/
def parseVal : Nat → List Char → Except String (Json × List Char)
| 0, _ => .error "recursion limit exceeded"
| Nat.succ fuel, cs =>
  match cs.dropWhile isJsonWs with
  | [] => .error "EOF while parsing a value"
  | c :: rest =>
    if c = '"' then
      match parseStrBody (rest.length + 1) [] rest with
      | .error e => .error e
      | .ok (s, rest2) => .ok (Json.str s, rest2)
    else if c = Char.ofNat 123 then parseObjMems fuel rest []
    else if c = '[' then parseArrElems fuel rest []
    else if c = 't' then
      if ['r', 'u', 'e'].isPrefixOf rest then .ok (Json.bool true, rest.drop 3)
      else .error "expected ident"
    else if c = 'f' then
      if ['a', 'l', 's', 'e'].isPrefixOf rest then .ok (Json.bool false, rest.drop 4)
      else .error "expected ident"
    else if c = 'n' then
      if ['u', 'l', 'l'].isPrefixOf rest then .ok (Json.null, rest.drop 3)
      else .error "expected ident"
    else if c = '-' ∨ isDigit c then parseNumber (c :: rest)
    else .error "expected value"

/-- Elements of a JSON array, after the opening bracket or a comma. -/
def parseArrElems : Nat → List Char → List Json → Except String (Json × List Char)
| 0, _, _ => .error "recursion limit exceeded"
| Nat.succ fuel, cs, acc =>
  match cs.dropWhile isJsonWs with
  | ']' :: rest =>
    if acc.isEmpty then .ok (Json.arr [], rest) else .error "trailing comma"
  | cs1 =>
    match parseVal fuel cs1 with
    | .error e => .error e
    | .ok (v, rest) =>
      match rest.dropWhile isJsonWs with
      | ']' :: rest2 => .ok (Json.arr (acc ++ [v]), rest2)
      | ',' :: rest2 => parseArrElems fuel rest2 (acc ++ [v])
      | _ => .error "expected comma or closing bracket"

/-- Members of a JSON object, after the opening brace or a comma. A duplicate
key overwrites the earlier binding, as in serde_json's map insert. -/
def parseObjMems : Nat → List Char → List (String × Json) → Except String (Json × List Char)
| 0, _, _ => .error "recursion limit exceeded"
| Nat.succ fuel, cs, acc =>
  match cs.dropWhile isJsonWs with
  | [] => .error "EOF while parsing an object"
  | c :: rest =>
    if c = Char.ofNat 125 then
      if acc.isEmpty then .ok (Json.obj [], rest) else .error "trailing comma"
    else if c = '"' then
      match parseStrBody (rest.length + 1) [] rest with
      | .error e => .error e
      | .ok (k, rest2) =>
        match rest2.dropWhile isJsonWs with
        | ':' :: rest3 =>
          match parseVal fuel rest3 with
          | .error e => .error e
          | .ok (v, rest4) =>
            let acc2 := (acc.filter (fun p => !(p.1 == k))) ++ [(k, v)]
            match rest4.dropWhile isJsonWs with
            | c2 :: rest5 =>
              if c2 = Char.ofNat 125 then .ok (Json.obj acc2, rest5)
              else if c2 = ',' then parseObjMems fuel rest5 acc2
              else .error "expected comma or closing brace"
            | [] => .error "EOF while parsing an object"
        | _ => .error "expected colon"
    else .error "key must be a string"

end

/-- Model of `serde_json::from_str`: one JSON value, with only whitespace
allowed after it. -/
def parseJson (s : String) : Except String Json :=
  match parseVal (2 * s.length + 8) s.data with
  | .error e => .error e
  | .ok (v, rest) =>
    if (rest.dropWhile isJsonWs).isEmpty then .ok v
    else .error "trailing characters"

/-- Unicode `White_Space` code points, the characters removed by Rust's
`str::trim`. -/
def isRustWhitespace (c : Char) : Bool :=
  [9, 10, 11, 12, 13, 32, 0x85, 0xA0, 0x1680,
   0x2000, 0x2001, 0x2002, 0x2003, 0x2004, 0x2005, 0x2006, 0x2007, 0x2008,
   0x2009, 0x200A, 0x2028, 0x2029, 0x202F, 0x205F, 0x3000].contains c.toNat

/-- Model of Rust's `str::trim` on a character list. -/
def rustTrimList (cs : List Char) : List Char :=
  ((cs.dropWhile isRustWhitespace).reverse.dropWhile isRustWhitespace).reverse

/-- Model of Rust's `str::trim_start_matches` with a string pattern: the
pattern is removed repeatedly from the front. Fuel bounds the recursion. -/
def stripStartRep (pat : List Char) : Nat → List Char → List Char
| 0, cs => cs
| Nat.succ fuel, cs =>
  if !pat.isEmpty && pat.isPrefixOf cs then stripStartRep pat fuel (cs.drop pat.length)
  else cs

/-- Model of Rust's `str::trim_end_matches` with a string pattern, by
reversal. -/
def stripEndRep (pat : List Char) (fuel : Nat) (cs : List Char) : List Char :=
  (stripStartRep pat.reverse fuel cs.reverse).reverse

/-- The cleanup block of `handle_response` (lines 138-142): trim, strip the
markdown fence markers, drop newline characters, trim again. -/
def cleanResponse (raw : String) : String :=
  let trimmed := rustTrimList raw.data
  let withoutMarkers :=
    stripEndRep ("```".data) trimmed.length
      (stripStartRep ("```json".data) trimmed.length trimmed)
  let withoutNewlines := withoutMarkers.filter (fun c => !(c == '\n'))
  String.mk (rustTrimList withoutNewlines)

/-- Outcome of `handle_response`: the validated text, a domain `ApiError`
(status plus message), or a raw JSON decode error propagated unwrapped via
`?` on `res.json()` (or a body-read failure on that same path). -/
inductive HandleResult where
| ok (text : String) : HandleResult
| apiError (status : Nat) (message : String) : HandleResult
| jsonDecodeFailure (e : String) : HandleResult
deriving DecidableEq

/-- Model of `reqwest::StatusCode::is_success` (2xx). -/
def isSuccessStatus (status : Nat) : Bool := decide (200 ≤ status ∧ status ≤ 299)

/-- The extraction chain of line 131:
`response_json["candidates"][0]["content"]["parts"][0]["text"].as_str()`. -/
def extractText (envelope : Json) : Option String :=
  (((((envelope.getField "candidates").getIdx 0).getField "content").getField
      "parts").getIdx 0).getField "text" |>.asStr

/-- Lines 144-194 of `handle_response`: parse the cleaned text as JSON,
check the object/`command` shape, dispatch on the command value, and check
the shape of `parameters`. -/
def validateCleaned (status : Nat) (text : String) : HandleResult :=
  match parseJson text with
  | .error e => .apiError status ("Invalid JSON in response: " ++ e)
  | .ok jsonValue =>
    if !jsonValue.isObj || !(jsonValue.getField "command").isStr then
      .apiError status "Response JSON missing required fields"
    else
      match (jsonValue.getField "command").asStr with
      | some command =>
        if command = "greeting" then
          if !(jsonValue.getField "parameters").isObj then
            .apiError status "Single parameters must be an object"
          else .ok text
        else if command = "1" then
          if !(jsonValue.getField "parameters").isObj then
            .apiError status "Single parameters must be an object"
          else .ok text
        else if command = "2" then
          if !(jsonValue.getField "parameters").isArr then
            .apiError status "Multiple parameters must be an array"
          else .ok text
        else .apiError status ("Unknown command: " ++ command)
      | none => .apiError status "Response JSON missing required fields"

/-- Model of `handle_response` (lines 124-203). The response body is `none`
when it cannot be read as text. On the success-status path the body is
decoded as JSON (`res.json()`), the nested text is extracted and cleaned,
and the cleaned text is validated; on the error-status path the raw body
becomes the `ApiError` message, with the literal fallback when unreadable. -/
def handle_response (status : Nat) (body : Option String) : HandleResult :=
  if isSuccessStatus status then
    match body with
    | none => .jsonDecodeFailure "error reading response body"
    | some b =>
      match parseJson b with
      | .error e => .jsonDecodeFailure e
      | .ok envelope =>
        match extractText envelope with
        | none => .apiError status "Failed to extract text from response"
        | some rawText => validateCleaned status (cleanResponse rawText)
  else
    match body with
    | some b => .apiError status b
    | none => .apiError status "Error reading response"

/-- Escape a string for inclusion inside a JSON string literal (used only to
build concrete test bodies). -/
def escJsonStr (s : String) : String :=
  String.mk (s.data.foldr (fun c acc =>
    if c = '"' then '\\' :: '"' :: acc
    else if c = '\\' then '\\' :: '\\' :: acc
    else if c = '\n' then '\\' :: 'n' :: acc
    else c :: acc) [])

/-- A Gemini-style response envelope whose nested text is the given payload. -/
def mkEnvelopeBody (payload : String) : String :=
  "\x7b\"candidates\":[\x7b\"content\":\x7b\"parts\":[\x7b\"text\":\""
    ++ escJsonStr payload ++ "\"\x7d]\x7d\x7d]\x7d"

/-- Payload accepted by the `"greeting"` branch. -/
def payloadGreeting : String := "\x7b\"command\":\"greeting\",\"parameters\":\x7b\"a\":1\x7d\x7d"

/-- Payload accepted by the `"2"` branch. -/
def payloadMulti : String := "\x7b\"command\":\"2\",\"parameters\":[1,2]\x7d"

/-- Payload with command `"2"` but object parameters. -/
def payloadMultiBad : String := "\x7b\"command\":\"2\",\"parameters\":\x7b\"a\":1\x7d\x7d"

/-- Payload with command `"1"` but array parameters. -/
def payloadSingleBad : String := "\x7b\"command\":\"1\",\"parameters\":[]\x7d"

/-- Payload with an unrecognized command value. -/
def payloadUnknown : String := "\x7b\"command\":\"x\",\"parameters\":\x7b\x7d\x7d"

/-- Payload with no `command` field. -/
def payloadNoCmd : String := "\x7b\"parameters\":\x7b\x7d\x7d"

/-- Payload with no `parameters` field. -/
def payloadNoParams : String := "\x7b\"command\":\"greeting\"\x7d"

/-- The already-clean payload used by the cleanup claims. -/
def payloadClean : String := "\x7b\"command\":\"greeting\",\"parameters\":\x7b\x7d\x7d"

/-- A valid payload carrying an extra field beyond the contract. -/
def payloadExtra : String := "\x7b\"command\":\"greeting\",\"parameters\":\x7b\x7d,\"extra\":7\x7d"

/-- The decoded envelope corresponding to `mkEnvelopeBody`. -/
def envOf (p : String) : Json :=
  Json.obj [("candidates", Json.arr [Json.obj [("content", Json.obj [("parts",
    Json.arr [Json.obj [("text", Json.str p)]])])]])]

/-- Extraction from a well-formed envelope recovers the payload. -/
theorem extractText_envOf (p : String) : extractText (envOf p) = some p := rfl

/-- A value whose `as_str` is `some s` is the string `s`. -/
theorem Json.asStr_some {j : Json} {s : String} (h : j.asStr = some s) :
    j = Json.str s := by
  cases j <;> simp_all [Json.asStr]

/-- A field lookup can only return a string when the receiver is an object. -/
theorem Json.isObj_of_getField_str {v : Json} {k s : String}
    (h : v.getField k = Json.str s) : v.isObj = true := by
  cases v <;> simp_all [Json.getField, Json.isObj]

/-- A field lookup on an object without the key returns `Null`. -/
theorem Json.getField_of_not_hasKey {v : Json} {k : String}
    (h : v.hasKey k = false) : v.getField k = Json.null := by
  cases v <;> simp_all [Json.hasKey, Json.getField]
  rename_i fs
  have hf : List.find? (fun p => p.1 == k) fs = none := by
    rw [List.find?_eq_none]
    intro p hp
    simp only [beq_iff_eq]
    exact h p.1 p.2 hp
  rw [hf]
  rfl

/-- On the success-status path, once the envelope decodes and the nested text
is present, `handle_response` reduces to validating the cleaned text. -/
theorem handle_response_success_eq {status : Nat} {b : String} {env : Json}
    {raw : String}
    (hs : isSuccessStatus status = true)
    (hp : parseJson b = Except.ok env)
    (he : extractText env = some raw) :
    handle_response status (some b) = validateCleaned status (cleanResponse raw) := by
  simp [handle_response, hs, hp, he]

/-- Dispatch: commands `"greeting"` and `"1"` with non-object parameters. -/
theorem validateCleaned_single_shape {status : Nat} {t : String} {v : Json}
    (hp : parseJson t = Except.ok v)
    (hc : v.getField "command" = Json.str "greeting" ∨
          v.getField "command" = Json.str "1")
    (hob : (v.getField "parameters").isObj = false) :
    validateCleaned status t = .apiError status "Single parameters must be an object" := by
  rcases hc with hc | hc <;>
    simp [validateCleaned, hp, hc, Json.isObj_of_getField_str hc, Json.asStr,
      Json.isStr, hob]

/-- Dispatch: command `"2"` with non-array parameters. -/
theorem validateCleaned_multi_shape {status : Nat} {t : String} {v : Json}
    (hp : parseJson t = Except.ok v)
    (hc : v.getField "command" = Json.str "2")
    (har : (v.getField "parameters").isArr = false) :
    validateCleaned status t = .apiError status "Multiple parameters must be an array" := by
  simp [validateCleaned, hp, hc, Json.isObj_of_getField_str hc, Json.asStr,
    Json.isStr, har]

/-- Dispatch: an unrecognized command value. -/
theorem validateCleaned_unknown_command {status : Nat} {t : String} {v : Json}
    {cmd : String}
    (hp : parseJson t = Except.ok v)
    (hc : v.getField "command" = Json.str cmd)
    (h1 : cmd ≠ "greeting") (h2 : cmd ≠ "1") (h3 : cmd ≠ "2") :
    validateCleaned status t = .apiError status ("Unknown command: " ++ cmd) := by
  simp [validateCleaned, hp, hc, Json.isObj_of_getField_str hc, Json.asStr,
    Json.isStr, h1, h2, h3]

/-- Dispatch: a correctly shaped payload is accepted and the input text is
returned unchanged. -/
theorem validateCleaned_accepts {status : Nat} {t : String} {v : Json}
    {cmd : String}
    (hp : parseJson t = Except.ok v)
    (hc : v.getField "command" = Json.str cmd)
    (hshape : ((cmd = "greeting" ∨ cmd = "1") ∧ (v.getField "parameters").isObj = true) ∨
              (cmd = "2" ∧ (v.getField "parameters").isArr = true)) :
    validateCleaned status t = .ok t := by
  rcases hshape with ⟨hc2 | hc2, hps⟩ | ⟨hc2, hps⟩ <;> subst hc2 <;>
    simp [validateCleaned, hp, hc, Json.isObj_of_getField_str hc, Json.asStr,
      Json.isStr, hps]

/-- Inversion: a successful validation returns its input text, and that text
parses to an object with a string command in the contract and correctly
shaped parameters. -/
theorem validateCleaned_ok_inv {status : Nat} {t text : String}
    (h : validateCleaned status t = .ok text) :
    text = t ∧ ∃ v, parseJson t = Except.ok v ∧ v.isObj = true ∧ ∃ cmd,
      v.getField "command" = Json.str cmd ∧
      (((cmd = "greeting" ∨ cmd = "1") ∧ (v.getField "parameters").isObj = true) ∨
       (cmd = "2" ∧ (v.getField "parameters").isArr = true)) := by
  cases hp : parseJson t with
  | error e => simp [validateCleaned, hp] at h
  | ok v =>
    rw [validateCleaned, hp] at h
    simp only [] at h
    by_cases hg : (!v.isObj || !(v.getField "command").isStr) = true
    · rw [if_pos hg] at h
      exact absurd h (by simp)
    · rw [if_neg hg] at h
      simp only [Bool.or_eq_true, Bool.not_eq_true', not_or] at hg
      obtain ⟨hobj', hstr'⟩ := hg
      have hobj : v.isObj = true := by
        cases hb : v.isObj
        · exact absurd hb hobj'
        · rfl
      cases ha : (v.getField "command").asStr with
      | none =>
        rw [ha] at h
        exact absurd h (by simp)
      | some cmd =>
        rw [ha] at h
        simp only [] at h
        have hcmd : v.getField "command" = Json.str cmd := Json.asStr_some ha
        by_cases h1 : cmd = "greeting"
        · rw [if_pos h1] at h
          by_cases hps : (!(v.getField "parameters").isObj) = true
          · rw [if_pos hps] at h
            exact absurd h (by simp)
          · rw [if_neg hps] at h
            simp only [Bool.not_eq_true', Bool.not_eq_false] at hps
            cases h
            exact ⟨rfl, v, rfl, hobj, cmd, hcmd, Or.inl ⟨Or.inl h1, hps⟩⟩
        · rw [if_neg h1] at h
          by_cases h2 : cmd = "1"
          · rw [if_pos h2] at h
            by_cases hps : (!(v.getField "parameters").isObj) = true
            · rw [if_pos hps] at h
              exact absurd h (by simp)
            · rw [if_neg hps] at h
              simp only [Bool.not_eq_true', Bool.not_eq_false] at hps
              cases h
              exact ⟨rfl, v, rfl, hobj, cmd, hcmd, Or.inl ⟨Or.inr h2, hps⟩⟩
          · rw [if_neg h2] at h
            by_cases h3 : cmd = "2"
            · rw [if_pos h3] at h
              by_cases hps : (!(v.getField "parameters").isArr) = true
              · rw [if_pos hps] at h
                exact absurd h (by simp)
              · rw [if_neg hps] at h
                simp only [Bool.not_eq_true', Bool.not_eq_false] at hps
                cases h
                exact ⟨rfl, v, rfl, hobj, cmd, hcmd, Or.inr ⟨h3, hps⟩⟩
            · rw [if_neg h3] at h
              exact absurd h (by simp)

/-- Claim C3: for every status code outside the success range and every body,
`handle_response` returns an `ApiError` carrying exactly that status and the
raw body text (or the fallback literal `"Error reading response"` when the
body is unreadable); the body is never parsed as JSON on this path. -/
theorem http_error_passthrough (status : Nat) (body : Option String)
    (h : isSuccessStatus status = false) :
    handle_response status body = .apiError status (body.getD "Error reading response") := by
  cases body <;> simp [handle_response, h]

theorem http_error_passthrough_witness :
    isSuccessStatus 404 = false ∧
    handle_response 404 (some "backend exploded") = .apiError 404 "backend exploded" ∧
    handle_response 404 none = .apiError 404 "Error reading response" :=
  ⟨by decide, http_error_passthrough 404 (some "backend exploded") (by decide),
    http_error_passthrough 404 none (by decide)⟩

/-- Claim C4: for every success-status body that decodes as JSON but has no
string at `candidates[0].content.parts[0].text`, the result is the
extraction error with message `"Failed to extract text from response"`. -/
theorem extraction_failure_error (status : Nat) (b : String) (env : Json)
    (hs : isSuccessStatus status = true)
    (hp : parseJson b = Except.ok env)
    (he : extractText env = none) :
    handle_response status (some b) =
      .apiError status "Failed to extract text from response" := by
  simp [handle_response, hs, hp, he]

theorem extraction_failure_error_witness :
    handle_response 200 (some "\x7b\"candidates\":[]\x7d") =
      .apiError 200 "Failed to extract text from response" :=
  extraction_failure_error 200 "\x7b\"candidates\":[]\x7d"
    (Json.obj [("candidates", Json.arr [])]) (by decide) (by rfl) (by rfl)

/-- Claim C5: cleaning trims whitespace first, then strips the leading
fence literal and trailing fence literal of the trimmed string, then drops
newline characters; the fenced example input cleans to exactly the payload. -/
theorem fence_cleanup_example :
    cleanResponse (" ```json\n" ++ payloadClean ++ "\n``` ") = payloadClean ∧
    cleanResponse ("```json\n" ++ payloadClean ++ "\n```") = payloadClean := by
  constructor <;> decide

/-- Claim C7: on the success-status path a body that fails to decode as JSON
at the envelope level propagates the raw decode error, not a domain
`ApiError`. -/
theorem envelope_decode_error_unwrapped (status : Nat) (b : String) (e : String)
    (hs : isSuccessStatus status = true)
    (hp : parseJson b = Except.error e) :
    handle_response status (some b) = .jsonDecodeFailure e ∧
    (∀ st msg, handle_response status (some b) ≠ .apiError st msg) := by
  have h : handle_response status (some b) = .jsonDecodeFailure e := by
    simp [handle_response, hs, hp]
  refine ⟨h, fun st msg hne => ?_⟩
  rw [h] at hne
  exact HandleResult.noConfusion hne

theorem envelope_decode_error_unwrapped_witness :
    handle_response 200 (some "not a json body") = .jsonDecodeFailure "expected ident" ∧
    (∀ st msg, handle_response 200 (some "not a json body") ≠ .apiError st msg) :=
  envelope_decode_error_unwrapped 200 "not a json body" "expected ident"
    (by decide) (by rfl)

/-- Claim C8: the cleanup transformation leaves the already-clean payload
unchanged. -/
theorem cleanup_idempotent_on_clean : cleanResponse payloadClean = payloadClean := by
  decide

/-- Claim C1: every successful validation result re-decodes as JSON to an
object whose `command` field is a string among `"greeting"`, `"1"`, `"2"`,
with object parameters for `"greeting"`/`"1"` and array parameters for
`"2"`; both conjuncts hold for every successful result. -/
theorem validated_payload_roundtrip (status : Nat) (body : Option String)
    (text : String)
    (h : handle_response status body = HandleResult.ok text) :
    ∃ v, parseJson text = Except.ok v ∧ v.isObj = true ∧ ∃ cmd,
      v.getField "command" = Json.str cmd ∧
      (((cmd = "greeting" ∨ cmd = "1") ∧ (v.getField "parameters").isObj = true) ∨
       (cmd = "2" ∧ (v.getField "parameters").isArr = true)) := by
  by_cases hs : isSuccessStatus status = true
  · cases body with
    | none => simp [handle_response, hs] at h
    | some b =>
      cases hp : parseJson b with
      | error e => simp [handle_response, hs, hp] at h
      | ok env =>
        cases he : extractText env with
        | none => simp [handle_response, hs, hp, he] at h
        | some raw =>
          rw [handle_response_success_eq hs hp he] at h
          obtain ⟨htext, v, hv, hobj, cmd, hcmd, hshape⟩ := validateCleaned_ok_inv h
          subst htext
          exact ⟨v, hv, hobj, cmd, hcmd, hshape⟩
  · have hs' : isSuccessStatus status = false := by
      cases hb : isSuccessStatus status
      · rfl
      · exact absurd hb hs
    cases body <;> simp [handle_response, hs'] at h

theorem validated_payload_roundtrip_witness :
    ∃ v, parseJson payloadGreeting = Except.ok v ∧ v.isObj = true ∧ ∃ cmd,
      v.getField "command" = Json.str cmd ∧
      (((cmd = "greeting" ∨ cmd = "1") ∧ (v.getField "parameters").isObj = true) ∨
       (cmd = "2" ∧ (v.getField "parameters").isArr = true)) :=
  validated_payload_roundtrip 200 (some (mkEnvelopeBody payloadGreeting))
    payloadGreeting (by decide)

/-- Claim C2: the validator dispatches on the `command` string: the greeting
and `"2"` example payloads validate successfully; `"greeting"`/`"1"` with
non-object parameters give `"Single parameters must be an object"`, `"2"`
with non-array parameters gives `"Multiple parameters must be an array"`,
and any other command value gives `"Unknown command: <value>"`. -/
theorem command_dispatch_behavior :
    handle_response 200 (some (mkEnvelopeBody payloadGreeting)) = .ok payloadGreeting ∧
    handle_response 200 (some (mkEnvelopeBody payloadMulti)) = .ok payloadMulti ∧
    (∀ status b env raw v, isSuccessStatus status = true → parseJson b = Except.ok env →
      extractText env = some raw → parseJson (cleanResponse raw) = Except.ok v →
      (v.getField "command" = Json.str "greeting" ∨ v.getField "command" = Json.str "1") →
      (v.getField "parameters").isObj = false →
      handle_response status (some b) = .apiError status "Single parameters must be an object") ∧
    (∀ status b env raw v, isSuccessStatus status = true → parseJson b = Except.ok env →
      extractText env = some raw → parseJson (cleanResponse raw) = Except.ok v →
      v.getField "command" = Json.str "2" →
      (v.getField "parameters").isArr = false →
      handle_response status (some b) = .apiError status "Multiple parameters must be an array") ∧
    (∀ status b env raw v cmd, isSuccessStatus status = true → parseJson b = Except.ok env →
      extractText env = some raw → parseJson (cleanResponse raw) = Except.ok v →
      v.getField "command" = Json.str cmd → cmd ≠ "greeting" → cmd ≠ "1" → cmd ≠ "2" →
      handle_response status (some b) = .apiError status ("Unknown command: " ++ cmd)) := by
  refine ⟨by decide, by decide, ?_, ?_, ?_⟩
  · intro status b env raw v hs hp he hv hc hob
    rw [handle_response_success_eq hs hp he]
    exact validateCleaned_single_shape hv hc hob
  · intro status b env raw v hs hp he hv hc har
    rw [handle_response_success_eq hs hp he]
    exact validateCleaned_multi_shape hv hc har
  · intro status b env raw v cmd hs hp he hv hc h1 h2 h3
    rw [handle_response_success_eq hs hp he]
    exact validateCleaned_unknown_command hv hc h1 h2 h3

theorem command_dispatch_behavior_witness :
    handle_response 200 (some (mkEnvelopeBody payloadSingleBad)) =
      .apiError 200 "Single parameters must be an object" ∧
    handle_response 200 (some (mkEnvelopeBody payloadMultiBad)) =
      .apiError 200 "Multiple parameters must be an array" ∧
    handle_response 200 (some (mkEnvelopeBody payloadUnknown)) =
      .apiError 200 "Unknown command: x" :=
  ⟨command_dispatch_behavior.2.2.1 200 (mkEnvelopeBody payloadSingleBad)
      (envOf payloadSingleBad) payloadSingleBad
      (Json.obj [("command", Json.str "1"), ("parameters", Json.arr [])])
      (by decide) (by rfl) (extractText_envOf _) (by rfl) (Or.inr (by rfl)) (by rfl),
   command_dispatch_behavior.2.2.2.1 200 (mkEnvelopeBody payloadMultiBad)
      (envOf payloadMultiBad) payloadMultiBad
      (Json.obj [("command", Json.str "2"), ("parameters", Json.obj [("a", Json.num "1")])])
      (by decide) (by rfl) (extractText_envOf _) (by rfl) (by rfl) (by rfl),
   command_dispatch_behavior.2.2.2.2 200 (mkEnvelopeBody payloadUnknown)
      (envOf payloadUnknown) payloadUnknown
      (Json.obj [("command", Json.str "x"), ("parameters", Json.obj [])]) "x"
      (by decide) (by rfl) (extractText_envOf _) (by rfl) (by rfl)
      (by decide) (by decide) (by decide)⟩

/-- Claim C6: a cleaned text that fails to decode as JSON gives the schema
error `"Invalid JSON in response: <decode error detail>"`, and a cleaned
text that decodes to a non-object, or to an object whose `command` is not a
string, gives `"Response JSON missing required fields"`. -/
theorem schema_json_error_messages :
    (∀ status b env raw e, isSuccessStatus status = true → parseJson b = Except.ok env →
      extractText env = some raw → parseJson (cleanResponse raw) = Except.error e →
      handle_response status (some b) =
        .apiError status ("Invalid JSON in response: " ++ e)) ∧
    (∀ status b env raw v, isSuccessStatus status = true → parseJson b = Except.ok env →
      extractText env = some raw → parseJson (cleanResponse raw) = Except.ok v →
      (v.isObj = false ∨ (v.getField "command").isStr = false) →
      handle_response status (some b) =
        .apiError status "Response JSON missing required fields") := by
  constructor
  · intro status b env raw e hs hp he hv
    rw [handle_response_success_eq hs hp he]
    simp [validateCleaned, hv]
  · intro status b env raw v hs hp he hv hbad
    rw [handle_response_success_eq hs hp he]
    rcases hbad with hbad | hbad <;> simp [validateCleaned, hv, hbad]

theorem schema_json_error_messages_witness :
    handle_response 200 (some (mkEnvelopeBody "oops")) =
      .apiError 200 ("Invalid JSON in response: " ++ "expected value") ∧
    handle_response 200 (some (mkEnvelopeBody payloadNoCmd)) =
      .apiError 200 "Response JSON missing required fields" :=
  ⟨schema_json_error_messages.1 200 (mkEnvelopeBody "oops") (envOf "oops") "oops"
      "expected value" (by decide) (by rfl) (extractText_envOf _) (by rfl),
   schema_json_error_messages.2 200 (mkEnvelopeBody payloadNoCmd) (envOf payloadNoCmd)
      payloadNoCmd (Json.obj [("parameters", Json.obj [])]) (by decide) (by rfl)
      (extractText_envOf _) (by rfl) (Or.inr (by rfl))⟩

/-- Claim C9: an object payload with command `"greeting"` or `"1"` but no
`parameters` key at all fails with the shape message `"Single parameters
must be an object"`, because the absent key is looked up as `Null`. -/
theorem missing_parameters_key_shape_error (status : Nat) (b : String) (env : Json)
    (raw : String) (v : Json)
    (hs : isSuccessStatus status = true)
    (hp : parseJson b = Except.ok env)
    (he : extractText env = some raw)
    (hv : parseJson (cleanResponse raw) = Except.ok v)
    (hc : v.getField "command" = Json.str "greeting" ∨ v.getField "command" = Json.str "1")
    (hk : v.hasKey "parameters" = false) :
    handle_response status (some b) =
      .apiError status "Single parameters must be an object" := by
  rw [handle_response_success_eq hs hp he]
  have hnull := Json.getField_of_not_hasKey hk
  refine validateCleaned_single_shape hv hc ?_
  rw [hnull]
  rfl

theorem missing_parameters_key_shape_error_witness :
    handle_response 200 (some (mkEnvelopeBody payloadNoParams)) =
      .apiError 200 "Single parameters must be an object" :=
  missing_parameters_key_shape_error 200 (mkEnvelopeBody payloadNoParams)
    (envOf payloadNoParams) payloadNoParams
    (Json.obj [("command", Json.str "greeting")])
    (by decide) (by rfl) (extractText_envOf _) (by rfl) (Or.inl (by rfl)) (by rfl)

/-- Claim C10: a payload with a valid command and correctly shaped
parameters validates successfully regardless of extra fields, and the
returned text is the cleaned text itself, verbatim. -/
theorem extra_fields_preserved (status : Nat) (b : String) (env : Json)
    (raw : String) (v : Json) (cmd : String)
    (hs : isSuccessStatus status = true)
    (hp : parseJson b = Except.ok env)
    (he : extractText env = some raw)
    (hv : parseJson (cleanResponse raw) = Except.ok v)
    (hc : v.getField "command" = Json.str cmd)
    (hshape : ((cmd = "greeting" ∨ cmd = "1") ∧ (v.getField "parameters").isObj = true) ∨
              (cmd = "2" ∧ (v.getField "parameters").isArr = true)) :
    handle_response status (some b) = .ok (cleanResponse raw) := by
  rw [handle_response_success_eq hs hp he]
  exact validateCleaned_accepts hv hc hshape

theorem extra_fields_preserved_witness :
    (Json.obj [("command", Json.str "greeting"), ("parameters", Json.obj []),
      ("extra", Json.num "7")]).hasKey "extra" = true ∧
    handle_response 200 (some (mkEnvelopeBody payloadExtra)) = .ok payloadExtra :=
  ⟨by rfl,
   extra_fields_preserved 200 (mkEnvelopeBody payloadExtra) (envOf payloadExtra)
     payloadExtra
     (Json.obj [("command", Json.str "greeting"), ("parameters", Json.obj []),
       ("extra", Json.num "7")]) "greeting"
     (by decide) (by rfl) (extractText_envOf _) (by rfl) (by rfl)
     (Or.inl ⟨Or.inl rfl, by rfl⟩)⟩

end RestClient
